import Mathlib

/-!
Formal model of the enterprise usage dashboard metrics engine.

The definitions below are a shallow embedding of the JavaScript worker
source (src/unnamed/part_002).  Numeric values are modelled as rationals,
JavaScript objects as structures, possibly-absent fields as Option, and
the key-value store as explicit association lists.  ISO timestamp strings
are modelled as integers carrying the same chronological order, because
the source only ever compares them through Date subtraction.
-/

attribute [local semireducible] Rat.mul Rat.add Rat.sub Rat.inv

/-- JavaScript truthiness for a possibly-absent numeric field: absent,
NaN and 0 are falsy.  A missing-or-NaN value is modelled as none. -/
def truthyQ (v : Option ℚ) : Bool :=
  match v with
  | none => false
  | some x => decide (x ≠ 0)

/-- JavaScript `v || d` for a possibly-absent numeric v: absent, NaN and
0 fall back to the default d. -/
def jsOrQ (v : Option ℚ) (d : ℚ) : ℚ :=
  match v with
  | none => d
  | some x => if x = 0 then d else x

/-- JavaScript `array.reduce((a, b) => a + b, 0)` over possibly-absent
numbers: adding an absent (undefined) operand yields NaN, which is
modelled by none and is absorbing. -/
def jsSum0 (l : List (Option ℚ)) : Option ℚ :=
  l.foldl (fun acc v =>
    match acc, v with
    | some a, some b => some (a + b)
    | _, _ => none) (some 0)

/-- JavaScript `Math.round`: round half toward positive infinity.
Stated through the executable Rat.floor; jsRound_eq_intFloor below ties
it to the mathematical floor. -/
def jsRound (q : ℚ) : ℤ := (q + 1/2).floor

theorem jsRound_eq_intFloor (q : ℚ) : jsRound q = ⌊q + 1/2⌋ := by
  rw [jsRound, Rat.floor_def', Rat.floor_def]

/-- A 95 percent sampling-confidence interval as returned by the
analytics source: estimate, lower, upper, sampleSize.  Fields may be
absent in a raw payload, hence Option. -/
structure ConfidenceInterval where
  estimate : Option ℚ
  lower : Option ℚ
  upper : Option ℚ
  sampleSize : Option ℚ
deriving DecidableEq

/-- The record returned by calculateConfidencePercentage: the derived
percent together with the raw interval fields echoed back verbatim. -/
structure ConfidencePercent where
  percent : ℚ
  sampleSize : Option ℚ
  estimate : Option ℚ
  lower : Option ℚ
  upper : Option ℚ
deriving DecidableEq

/-- Model of calculateConfidencePercentage (part_002 lines 931-950 and
its identical copy at lines 1515-1530).  Returns null when the argument
or its estimate is falsy; otherwise lower and upper fall back to the
estimate when falsy, the relative interval width is clamped into
[0, 100] and rounded to one decimal. -/
def calculateConfidencePercentage (confidence : Option ConfidenceInterval) :
    Option ConfidencePercent :=
  match confidence with
  | none => none
  | some c =>
    match c.estimate with
    | none => none
    | some estimate =>
      if estimate = 0 then none
      else
        let lower := jsOrQ c.lower estimate
        let upper := jsOrQ c.upper estimate
        let intervalWidth := upper - lower
        let relativeWidth := intervalWidth / (2 * estimate)
        let confidencePercent := max 0 (min 100 (100 * (1 - relativeWidth)))
        some { percent := (jsRound (confidencePercent * 10) : ℚ) / 10,
               sampleSize := c.sampleSize,
               estimate := c.estimate,
               lower := c.lower,
               upper := c.upper }

/-- Written from the spec wording for the derived confidence percent:
100 * (1 - (upper - lower) / (2 * estimate)), clamped to [0, 100] and
rounded to one decimal, with lower and upper taken as given. -/
def specConfidencePercentFormula (estimate lower upper : ℚ) : ℚ :=
  (jsRound (max 0 (min 100 (100 * (1 - (upper - lower) / (2 * estimate)))) * 10) : ℚ) / 10

/-- One monthly time-series entry: {month (YYYY-MM), timestamp, requests,
bytes, dnsQueries}.  The source stores the timestamp as an ISO string and
compares entries via Date subtraction; an integer with the same order
stands in for it. -/
structure TimeSeriesEntry where
  month : String
  timestamp : ℤ
  requests : ℚ
  bytes : ℚ
  dnsQueries : ℚ
deriving DecidableEq

/-- Field-by-field accumulation of a time-series entry into an existing
map entry for the same month (part_002 lines 1602-1605): requests, bytes
and dnsQueries are added, month and timestamp of the existing entry are
kept. -/
def addTsFields (x e : TimeSeriesEntry) : TimeSeriesEntry :=
  { x with
    requests := x.requests + e.requests,
    bytes := x.bytes + e.bytes,
    dnsQueries := x.dnsQueries + e.dnsQueries }

/-- Insertion of one entry into the month-keyed merge map (part_002 lines
1601-1614).  A JavaScript Map holds at most one entry per key and keeps
insertion order, so it is modelled as an association list in which the
first (and only) entry with a matching month is updated, and an unseen
month is appended at the end. -/
def insertTsEntry : List TimeSeriesEntry → TimeSeriesEntry → List TimeSeriesEntry
  | [], e => [e]
  | x :: xs, e =>
    if x.month == e.month then addTsFields x e :: xs
    else x :: insertTsEntry xs e

/-- Comparison used to re-sort the merged series (part_002 line 1620):
ascending by timestamp. -/
def tsLe (a b : TimeSeriesEntry) : Prop := a.timestamp ≤ b.timestamp

instance : DecidableRel tsLe := fun a b => Int.decLe a.timestamp b.timestamp

instance : IsTotal TimeSeriesEntry tsLe := ⟨fun a b => Int.le_total a.timestamp b.timestamp⟩

instance : IsTrans TimeSeriesEntry tsLe := ⟨fun _ _ _ h h2 => le_trans h h2⟩

/-- Merge a list of per-account monthly series (part_002 lines 1596-1620):
fold every entry of every account into the month-keyed map, then sort the
collected values ascending by timestamp. -/
def mergeTimeSeriesLists (seriesLists : List (List TimeSeriesEntry)) : List TimeSeriesEntry :=
  List.insertionSort tsLe
    (seriesLists.foldl (fun m series => series.foldl insertTsEntry m) [])

/-- Per-metric confidence records attached to the current-month totals of
an account: {requests, bytes, dnsQueries}, each possibly null. -/
structure ConfidenceSet where
  requests : Option ConfidencePercent
  bytes : Option ConfidencePercent
  dnsQueries : Option ConfidencePercent
deriving DecidableEq

/-- Current-month totals of one account. -/
structure CurrentTotals where
  requests : ℚ
  bytes : ℚ
  dnsQueries : ℚ
  confidence : Option ConfidenceSet
deriving DecidableEq

/-- Previous-month totals of one account (no confidence retained). -/
structure PreviousTotals where
  requests : ℚ
  bytes : ℚ
  dnsQueries : ℚ
deriving DecidableEq

/-- One zone row of a zone breakdown. -/
structure ZoneRow where
  zoneId : String
  zoneName : Option String
  requests : ℚ
  bytes : ℚ
  dnsQueries : ℚ
  isPrimary : Bool
deriving DecidableEq

/-- Primary/secondary counts plus the per-zone rows. -/
structure ZoneBreakdown where
  primary : ℚ
  secondary : ℚ
  zones : List ZoneRow
deriving DecidableEq

/-- One account worth of metrics, the unit merged by the cross-account
aggregator. -/
structure AccountMetrics where
  accountId : String
  accountName : Option String
  current : CurrentTotals
  previous : PreviousTotals
  timeSeries : List TimeSeriesEntry
  zoneBreakdown : ZoneBreakdown
  previousMonthZoneBreakdown : ZoneBreakdown
deriving DecidableEq

/-- The combined cross-account view built by aggregateAccountMetrics. -/
structure AggregateMetrics where
  current : CurrentTotals
  previous : PreviousTotals
  timeSeries : List TimeSeriesEntry
  zoneBreakdown : ZoneBreakdown
  previousMonthZoneBreakdown : ZoneBreakdown
  perAccountData : List AccountMetrics
deriving DecidableEq

/-- The per-field confidence records collected by the aggregator loop
(part_002 lines 1483-1512): one record for each account whose confidence
object for that field is truthy. -/
def collectedConfidence (f : ConfidenceSet → Option ConfidencePercent)
    (accounts : List AccountMetrics) : List ConfidencePercent :=
  accounts.filterMap (fun a => a.current.confidence.bind f)

/-- Aggregation of one confidence field across accounts (part_002 lines
1532-1572): when at least one record was collected, sum estimate, lower,
upper and sampleSize separately and derive the percentage from the summed
interval; otherwise the aggregate keeps its initial null. -/
def aggregateConfidenceField (collected : List ConfidencePercent) : Option ConfidencePercent :=
  match collected with
  | [] => none
  | _ =>
    calculateConfidencePercentage (some
      { estimate := jsSum0 (collected.map (fun c => c.estimate)),
        lower := jsSum0 (collected.map (fun c => c.lower)),
        upper := jsSum0 (collected.map (fun c => c.upper)),
        sampleSize := jsSum0 (collected.map (fun c => c.sampleSize)) })

/-- Model of aggregateAccountMetrics (part_002 lines 1445-1623): sums the
scalar totals elementwise, aggregates each confidence field from the
collected per-account intervals, concatenates the zone lists, merges the
monthly series by month key, and retains the ungrouped per-account
list. -/
def aggregateAccountMetrics (accountMetrics : List AccountMetrics) : AggregateMetrics :=
  { current :=
      { requests := (accountMetrics.map (fun a => a.current.requests)).sum,
        bytes := (accountMetrics.map (fun a => a.current.bytes)).sum,
        dnsQueries := (accountMetrics.map (fun a => a.current.dnsQueries)).sum,
        confidence := some
          { requests := aggregateConfidenceField
              (collectedConfidence (fun c => c.requests) accountMetrics),
            bytes := aggregateConfidenceField
              (collectedConfidence (fun c => c.bytes) accountMetrics),
            dnsQueries := aggregateConfidenceField
              (collectedConfidence (fun c => c.dnsQueries) accountMetrics) } },
    previous :=
      { requests := (accountMetrics.map (fun a => a.previous.requests)).sum,
        bytes := (accountMetrics.map (fun a => a.previous.bytes)).sum,
        dnsQueries := (accountMetrics.map (fun a => a.previous.dnsQueries)).sum },
    timeSeries := mergeTimeSeriesLists (accountMetrics.map (fun a => a.timeSeries)),
    zoneBreakdown :=
      { primary := (accountMetrics.map (fun a => a.zoneBreakdown.primary)).sum,
        secondary := (accountMetrics.map (fun a => a.zoneBreakdown.secondary)).sum,
        zones := accountMetrics.foldl (fun acc a => acc ++ a.zoneBreakdown.zones) [] },
    previousMonthZoneBreakdown :=
      { primary := (accountMetrics.map (fun a => a.previousMonthZoneBreakdown.primary)).sum,
        secondary := (accountMetrics.map (fun a => a.previousMonthZoneBreakdown.secondary)).sum,
        zones := accountMetrics.foldl
          (fun acc a => acc ++ a.previousMonthZoneBreakdown.zones) [] },
    perAccountData := accountMetrics }

/-- One monthly entry of an add-on time series ({month, timestamp,
requests}; the bot-management variant carries the same shape under the
field name likelyHuman). -/
structure AddonSeriesEntry where
  month : String
  timestamp : ℤ
  requests : ℚ
deriving DecidableEq

/-- Insertion of one add-on series entry into the month-keyed merge map
(part_002 lines 427-442): only the requests field is summed. -/
def insertAddonSeriesEntry : List AddonSeriesEntry → AddonSeriesEntry → List AddonSeriesEntry
  | [], e => [e]
  | x :: xs, e =>
    if x.month == e.month then { x with requests := x.requests + e.requests } :: xs
    else x :: insertAddonSeriesEntry xs e

/-- Ascending-timestamp comparison for merged add-on series. -/
def addonSeriesLe (a b : AddonSeriesEntry) : Prop := a.timestamp ≤ b.timestamp

instance : DecidableRel addonSeriesLe := fun a b => Int.decLe a.timestamp b.timestamp

instance : IsTotal AddonSeriesEntry addonSeriesLe :=
  ⟨fun a b => Int.le_total a.timestamp b.timestamp⟩

instance : IsTrans AddonSeriesEntry addonSeriesLe := ⟨fun _ _ _ h h2 => le_trans h h2⟩

/-- Merge the per-account add-on series by month and re-sort ascending by
timestamp (part_002 lines 426-446). -/
def mergeAddonSeriesLists (seriesLists : List (List AddonSeriesEntry)) : List AddonSeriesEntry :=
  List.insertionSort addonSeriesLe
    (seriesLists.foldl (fun m series => series.foldl insertAddonSeriesEntry m) [])

/-- Current-month slice of one account for one add-on. -/
structure AddonCurrent where
  requests : ℚ
  zones : List ZoneRow
  confidence : Option ConfidencePercent
deriving DecidableEq

/-- Previous-month slice of one account for one add-on. -/
structure AddonPrevious where
  requests : ℚ
  zones : List ZoneRow
deriving DecidableEq

/-- The per-account add-on record produced by the per-account add-on
calculator. -/
structure AddonAccountData where
  current : AddonCurrent
  previous : AddonPrevious
  timeSeries : List AddonSeriesEntry
deriving DecidableEq

/-- A fulfilled per-account add-on result paired with its account id
(part_002 lines 415-423). -/
structure AddonAccountEntry where
  accountId : String
  data : AddonAccountData
deriving DecidableEq

/-- Per-account slice retained inside the merged add-on record. -/
structure AddonPerAccount where
  accountId : String
  current : AddonCurrent
  previous : AddonPrevious
  timeSeries : List AddonSeriesEntry
deriving DecidableEq

/-- The merged cross-account add-on record. -/
structure AddonMetrics where
  enabled : Bool
  threshold : Option ℚ
  current : AddonCurrent
  previous : AddonPrevious
  timeSeries : List AddonSeriesEntry
  perAccountData : List AddonPerAccount
deriving DecidableEq

/-- The combined confidence of the add-on merge (part_002 lines 449, 381,
582, 3296 and the matching pre-warm blocks): the confidence of the first
account entry whose current confidence is truthy, or null when no entry
has one. -/
def addonMergedConfidence (entries : List AddonAccountEntry) : Option ConfidencePercent :=
  (entries.find? (fun e => e.data.current.confidence.isSome)).bind
    (fun e => e.data.current.confidence)

/-- Model of the add-on cross-account merge block (part_002 lines
425-470 for API Shield; the Page Shield, Advanced Rate Limiting,
bot-management and pre-warm blocks repeat the same shape): totals are
summed, zone lists concatenated, series merged by month, and the
combined confidence is addonMergedConfidence.  With no fulfilled account
entry the merged record stays null. -/
def buildAddonAggregate (threshold : Option ℚ) (entries : List AddonAccountEntry) :
    Option AddonMetrics :=
  match entries with
  | [] => none
  | _ => some
    { enabled := true,
      threshold := threshold,
      current :=
        { requests := (entries.map (fun e => e.data.current.requests)).sum,
          zones := entries.foldl (fun acc e => acc ++ e.data.current.zones) [],
          confidence := addonMergedConfidence entries },
      previous :=
        { requests := (entries.map (fun e => e.data.previous.requests)).sum,
          zones := entries.foldl (fun acc e => acc ++ e.data.previous.zones) [] },
      timeSeries := mergeAddonSeriesLists (entries.map (fun e => e.data.timeSeries)),
      perAccountData := entries.map
        (fun e => ⟨e.accountId, e.data.current, e.data.previous, e.data.timeSeries⟩) }

/-- The numeric inputs handed to the request-driven threshold evaluator:
each tracked metric and each threshold may be absent. -/
structure MetricValues where
  zones : Option ℚ
  requests : Option ℚ
  bandwidth : Option ℚ
  dnsQueries : Option ℚ
  botManagement : Option ℚ
  apiShield : Option ℚ
  pageShield : Option ℚ
  advancedRateLimiting : Option ℚ
deriving DecidableEq

/-- All-absent metric values, the starting point for building concrete
inputs. -/
def MetricValues.none : MetricValues :=
  { zones := Option.none, requests := Option.none, bandwidth := Option.none,
    dnsQueries := Option.none, botManagement := Option.none, apiShield := Option.none,
    pageShield := Option.none, advancedRateLimiting := Option.none }

/-- One alert record pushed by the request-driven evaluator.  The source
renders current, threshold and percentage into display strings for some
metrics; the underlying numeric values are modelled. -/
structure AlertRecord where
  metric : String
  metricKey : String
  current : ℚ
  threshold : ℚ
  percentage : ℚ
deriving DecidableEq

/-- One guarded check of the request-driven evaluator (part_002 lines
1818-1958): when both the current value and the threshold are truthy and
current / threshold * 100 is at least 90, one alert record is pushed. -/
def alertIfBreached (name key : String) (cur thr : Option ℚ) : List AlertRecord :=
  match cur, thr with
  | some c, some t =>
    if c ≠ 0 ∧ t ≠ 0 then
      if c / t * 100 ≥ 90 then [{ metric := name, metricKey := key, current := c,
                                  threshold := t, percentage := c / t * 100 }]
      else []
    else []
  | _, _ => []

/-- Model of the alert-building half of checkThresholds (part_002 lines
1815-1958): the eight tracked metrics are checked in source order. -/
def checkThresholdAlerts (metrics thresholds : MetricValues) : List AlertRecord :=
  alertIfBreached "Enterprise Zones" "zones" metrics.zones thresholds.zones
    ++ alertIfBreached "HTTP Requests" "requests" metrics.requests thresholds.requests
    ++ alertIfBreached "Data Transfer" "bandwidth" metrics.bandwidth thresholds.bandwidth
    ++ alertIfBreached "DNS Queries" "dnsQueries" metrics.dnsQueries thresholds.dnsQueries
    ++ alertIfBreached "Bot Management (Likely Human)" "botManagement"
        metrics.botManagement thresholds.botManagement
    ++ alertIfBreached "API Shield (HTTP Requests)" "apiShield"
        metrics.apiShield thresholds.apiShield
    ++ alertIfBreached "Page Shield (HTTP Requests)" "pageShield"
        metrics.pageShield thresholds.pageShield
    ++ alertIfBreached "Advanced Rate Limiting (HTTP Requests)" "advancedRateLimiting"
        metrics.advancedRateLimiting thresholds.advancedRateLimiting

/-- The four thresholds read by the scheduled (cron) check. -/
structure ScheduledThresholds where
  zones : Option ℚ
  requests : Option ℚ
  bandwidth : Option ℚ
  dnsQueries : Option ℚ
deriving DecidableEq

/-- One alert record pushed by the scheduled check. -/
structure ScheduledAlert where
  metric : String
  current : ℚ
  threshold : ℚ
  percentage : ℚ
deriving DecidableEq

/-- One guarded check of the scheduled path (part_002 lines 3431-3465):
the threshold alone is tested for truthiness, and an alert is pushed only
when the current value strictly exceeds the threshold. -/
def scheduledAlertIfExceeded (name : String) (cur : ℚ) (thr : Option ℚ) : List ScheduledAlert :=
  match thr with
  | some t =>
    if t ≠ 0 ∧ cur > t then
      [{ metric := name, current := cur, threshold := t, percentage := cur / t * 100 }]
    else []
  | none => []

/-- Model of the alert-building part of runScheduledThresholdCheck
(part_002 lines 3423-3465). -/
def scheduledThresholdAlerts (totalZones requests bytes dnsQueries : ℚ)
    (t : ScheduledThresholds) : List ScheduledAlert :=
  scheduledAlertIfExceeded "Enterprise Zones" totalZones t.zones
    ++ scheduledAlertIfExceeded "HTTP Requests" requests t.requests
    ++ scheduledAlertIfExceeded "Data Transfer" bytes t.bandwidth
    ++ scheduledAlertIfExceeded "DNS Queries" dnsQueries t.dnsQueries

/-- One feature flag object inside the configuration; a missing enabled
field is falsy and is modelled as false. -/
structure ServiceFlag where
  enabled : Bool
deriving DecidableEq

/-- The applicationServices block of the configuration record. -/
structure ApplicationServices where
  core : Option ServiceFlag
  botManagement : Option ServiceFlag
  apiShield : Option ServiceFlag
  pageShield : Option ServiceFlag
  advancedRateLimiting : Option ServiceFlag
deriving DecidableEq

/-- The slice of the persisted configuration that the progressive cache
gate reads. -/
structure DashConfig where
  applicationServices : Option ApplicationServices
deriving DecidableEq

/-- Optional-chaining read of one enabled flag,
`config?.applicationServices?.<svc>?.enabled`. -/
def cfgEnabled (c : DashConfig) (f : ApplicationServices → Option ServiceFlag) : Bool :=
  match c.applicationServices with
  | none => false
  | some s =>
    match f s with
    | none => false
    | some flag => flag.enabled

/-- Presence of one add-on inside a cached pre-warmed payload: the add-on
object itself plus its timeSeries and perAccountData fields. -/
structure CachedAddonSnapshot where
  timeSeries : Option (List AddonSeriesEntry)
  perAccountData : Option (List AddonPerAccount)
deriving DecidableEq

/-- The fields of a cached pre-warmed payload inspected by the
completeness gate.  The core metrics spread into the payload root, so
core presence is the presence of the current field. -/
structure CachedSnapshotData where
  current : Option CurrentTotals
  botManagement : Option CachedAddonSnapshot
  apiShield : Option CachedAddonSnapshot
  pageShield : Option CachedAddonSnapshot
  advancedRateLimiting : Option CachedAddonSnapshot
deriving DecidableEq

/-- A stored pre-warmed cache entry: a build timestamp plus the payload
(part_002 lines 3326-3337). -/
structure PreWarmedCache where
  timestamp : ℤ
  data : Option CachedSnapshotData
deriving DecidableEq

/-- Completeness of one enabled add-on in a cached payload (part_002
lines 225-266): the add-on object, its timeSeries and its perAccountData
must all be present. -/
def addonSnapshotComplete (s : Option CachedAddonSnapshot) : Bool :=
  match s with
  | none => false
  | some d => d.timeSeries.isSome && d.perAccountData.isSome

/-- The cacheIsComplete flag computed by getMetricsProgressive (part_002
lines 214-272): it stays true exactly when every enabled feature has its
data in the cached payload. -/
def cacheIsComplete (config : DashConfig) (data : CachedSnapshotData) : Bool :=
  (!cfgEnabled config (fun s => s.core) || data.current.isSome)
    && (!cfgEnabled config (fun s => s.botManagement)
        || addonSnapshotComplete data.botManagement)
    && (!cfgEnabled config (fun s => s.apiShield)
        || addonSnapshotComplete data.apiShield)
    && (!cfgEnabled config (fun s => s.pageShield)
        || addonSnapshotComplete data.pageShield)
    && (!cfgEnabled config (fun s => s.advancedRateLimiting)
        || addonSnapshotComplete data.advancedRateLimiting)

/-- The cache-serving decision of getMetricsProgressive (part_002 lines
206-288): a pre-warmed snapshot is returned with phase cached only when
the entry and its data field exist and, when a configuration record is
stored, the payload is complete for it; otherwise the request falls
through to phase-based computation. -/
def servePreWarmed (cached : Option PreWarmedCache) (config : Option DashConfig) : Bool :=
  match cached with
  | none => false
  | some cd =>
    match cd.data with
    | none => false
    | some d =>
      match config with
      | none => true
      | some cfg => cacheIsComplete cfg d

/-- The pre-warmed cache key as built by the progressive request handler
(part_002 line 207): the account ids joined by commas, in given order. -/
def progressiveCacheKey (accountIds : List String) : String :=
  "pre-warmed:" ++ String.intercalate "," accountIds

/-- The pre-warmed cache key as built by the pre-warm job (part_002 line
3325): the account ids joined by commas, in given order. -/
def preWarmCacheKey (accountIds : List String) : String :=
  "pre-warmed:" ++ String.intercalate "," accountIds

/-- TTL of the pre-warmed snapshot entry (part_002 lines 3339-3342). -/
def preWarmCacheTtlSeconds : ℕ := 6 * 60 * 60

/-- Code-unit lexicographic order on character lists, the default
JavaScript Array.sort() comparison for strings. -/
def charListLe : List Char → List Char → Bool
  | [], _ => true
  | _ :: _, [] => false
  | a :: as, b :: bs => if a = b then charListLe as bs else decide (a < b)

/-- Code-unit lexicographic order on strings. -/
def strLe (a b : String) : Bool := charListLe a.data b.data

/-- JavaScript `array.sort()` on strings. -/
def sortStrings (l : List String) : List String :=
  List.insertionSort (fun a b => strLe a b = true) l

/-- The combined account key of the alert de-duplication markers
(part_002 line 1969): the sorted account ids joined by hyphens. -/
def accountsKeyOf (accounts : List String) : String :=
  String.intercalate "-" (sortStrings accounts)

/-- The de-duplication marker key of one metric for one calendar month
(part_002 line 1972). -/
def alertMarkerKey (accountsKey metricKey month : String) : String :=
  "alert-sent:" ++ accountsKey ++ ":" ++ metricKey ++ ":" ++ month

/-- One put issued against the key-value store, with its TTL in
seconds. -/
structure KvPut where
  key : String
  value : String
  expirationTtl : ℕ
deriving DecidableEq

/-- The de-duplication loop of checkThresholds (part_002 lines
1970-1980): walk the breached alerts in order; an alert whose marker key
is already stored is skipped, any other alert is included and its marker
is written immediately (45-day TTL).  Returns the included alerts, the
updated store and the puts issued. -/
def alertDedupLoop (accountsKey month : String) :
    List (String × String) → List AlertRecord →
    List AlertRecord × List (String × String) × List KvPut
  | kv, [] => ([], kv, [])
  | kv, alert :: rest =>
    let key := alertMarkerKey accountsKey alert.metricKey month
    match kv.lookup key with
    | some _ => alertDedupLoop accountsKey month kv rest
    | none =>
      let out := alertDedupLoop accountsKey month ((key, "true") :: kv) rest
      (alert :: out.1, out.2.1, { key := key, value := "true", expirationTtl := 3888000 } :: out.2.2)

/-- The notification stage of checkThresholds (part_002 lines 1960-2011):
with a configured webhook and at least one breached alert, the alerts are
de-duplicated against the per-month markers and a Slack message goes out
exactly when some alert survived.  Returns (sent, included alerts,
updated store, puts). -/
def checkThresholdsNotify (kv : List (String × String)) (accounts : List String)
    (month : String) (alerts : List AlertRecord) (hasWebhook : Bool) :
    Bool × List AlertRecord × List (String × String) × List KvPut :=
  if alerts ≠ [] ∧ hasWebhook = true then
    (decide ((alertDedupLoop (accountsKeyOf accounts) month kv alerts).1 ≠ []),
     (alertDedupLoop (accountsKeyOf accounts) month kv alerts).1,
     (alertDedupLoop (accountsKeyOf accounts) month kv alerts).2.1,
     (alertDedupLoop (accountsKeyOf accounts) month kv alerts).2.2)
  else (false, [], kv, [])

/-- The account object attached to a raw zone record. -/
structure RawZoneAccount where
  id : String
deriving DecidableEq

/-- The plan object attached to a raw zone record. -/
structure RawZonePlan where
  legacy_id : Option String
  name : Option String
deriving DecidableEq

/-- One zone row of the zones HTTP response. -/
structure RawZone where
  id : String
  name : String
  account : Option RawZoneAccount
  plan : Option RawZonePlan
deriving DecidableEq

/-- The zones HTTP response as far as fetchEnterpriseZones inspects it:
the ok flag and the possibly-absent result array. -/
structure ZonesHttpResponse where
  ok : Bool
  result : Option (List RawZone)
deriving DecidableEq

/-- Whether the character list starting here begins with the needle. -/
def charsStartWith : List Char → List Char → Bool
  | _, [] => true
  | [], _ :: _ => false
  | h :: hs, n :: ns => h == n && charsStartWith hs ns

/-- Whether the needle occurs inside the haystack, the model of
String.includes. -/
def charsContain : List Char → List Char → Bool
  | [], needle => needle.isEmpty
  | h :: hs, needle => charsStartWith (h :: hs) needle || charsContain hs needle

/-- JavaScript `hay.includes(needle)`. -/
def strContainsSub (hay needle : String) : Bool := charsContain hay.data needle.data

/-- The enterprise-plan test of fetchEnterpriseZones (part_002 lines
2150-2153). -/
def zonePlanIsEnterprise (z : RawZone) : Bool :=
  match z.plan with
  | none => false
  | some p =>
    p.legacy_id == some "enterprise"
      || (match p.name with
          | some n => strContainsSub n.toLower "enterprise"
          | none => false)

/-- Model of fetchEnterpriseZones (part_002 lines 2129-2156): a not-ok
response or a missing result array yields the empty list; otherwise the
result is filtered to the requested account and to enterprise plans. -/
def fetchEnterpriseZones (resp : ZonesHttpResponse) (accountId : String) : List RawZone :=
  match resp.result with
  | none => []
  | some zones =>
    if resp.ok then
      (zones.filter (fun z =>
        match z.account with
        | some a => a.id == accountId
        | none => false)).filter zonePlanIsEnterprise
    else []

/-- The kinds of outbound calls the per-account fetcher can make up to
and including zone discovery; the two analytics kinds mark the GraphQL
queries issued only after a non-empty zone list is found. -/
inductive ExternalCall where
  | accountLookup
  | zoneList
  | httpAnalytics
  | dnsAnalytics
deriving DecidableEq

/-- Whether a call is an analytics query (HTTP or DNS GraphQL). -/
def ExternalCall.isAnalyticsQuery : ExternalCall → Bool
  | ExternalCall.httpAnalytics => true
  | ExternalCall.dnsAnalytics => true
  | _ => false

/-- A stored current-month cache entry (part_002 lines 1424-1433). -/
structure CurrentMonthCache where
  version : ℕ
  cachedAt : ℤ
  data : AccountMetrics
deriving DecidableEq

/-- The schema version a current-month cache entry must carry (part_002
line 764). -/
def CACHE_VERSION : ℕ := 2

/-- The all-zero AccountMetrics returned for an account without eligible
zones (part_002 lines 795-819): zero totals, no confidence object, empty
series and empty zone lists. -/
def emptyAccountMetrics (accountId : String) (accountName : Option String) : AccountMetrics :=
  { accountId := accountId,
    accountName := accountName,
    current := { requests := 0, bytes := 0, dnsQueries := 0, confidence := none },
    previous := { requests := 0, bytes := 0, dnsQueries := 0 },
    timeSeries := [],
    zoneBreakdown := { primary := 0, secondary := 0, zones := [] },
    previousMonthZoneBreakdown := { primary := 0, secondary := 0, zones := [] } }

/-- Where a per-account fetch stands after zone discovery: served from
the 10-minute cache, returned early with the all-zero record, or about to
issue the analytics queries for the discovered zone ids. -/
inductive FetchStage where
  | cachedHit (data : AccountMetrics)
  | emptyZones (data : AccountMetrics)
  | analyticsQueries (zoneIds : List String)
deriving DecidableEq

/-- The zone-discovery step of fetchAccountMetrics (part_002 lines
777-822): reuse the cached zone list when present, otherwise fetch it;
with no eligible zone the all-zero record is returned at once, otherwise
the fetch proceeds to the analytics queries for the zone ids.  The second
component lists the outbound calls made so far (the account-name lookup
always happens first, at line 753). -/
def fetchAccountMetricsZonePhase (accountId : String) (accountName : Option String)
    (cachedZones : Option (List RawZone)) (zonesResp : ZonesHttpResponse) :
    FetchStage × List ExternalCall :=
  let discovered :=
    match cachedZones with
    | some zs => (zs, [ExternalCall.accountLookup])
    | none => (fetchEnterpriseZones zonesResp accountId,
               [ExternalCall.accountLookup, ExternalCall.zoneList])
  if discovered.1.isEmpty then
    (FetchStage.emptyZones (emptyAccountMetrics accountId accountName), discovered.2)
  else
    (FetchStage.analyticsQueries (discovered.1.map (fun z => z.id)), discovered.2)

/-- The opening of fetchAccountMetrics (part_002 lines 751-822): a
current-month cache entry with a truthy cachedAt, the current schema
version and age under ten minutes is returned verbatim; otherwise zone
discovery runs. -/
def fetchAccountMetricsStart (accountId : String) (accountName : Option String)
    (nowMs : ℤ) (cachedCurrent : Option CurrentMonthCache)
    (cachedZones : Option (List RawZone)) (zonesResp : ZonesHttpResponse) :
    FetchStage × List ExternalCall :=
  match cachedCurrent with
  | some cc =>
    if cc.cachedAt ≠ 0 ∧ cc.version = CACHE_VERSION ∧ nowMs - cc.cachedAt < 600000 then
      (FetchStage.cachedHit cc.data, [ExternalCall.accountLookup])
    else
      fetchAccountMetricsZonePhase accountId accountName cachedZones zonesResp
  | none => fetchAccountMetricsZonePhase accountId accountName cachedZones zonesResp

theorem calc_some_of_estimate (c : ConfidenceInterval) (e : ℚ) (hest : c.estimate = some e)
    (hne : e ≠ 0) :
    calculateConfidencePercentage (some c) = some
      { percent := (jsRound (max 0 (min 100
          (100 * (1 - (jsOrQ c.upper e - jsOrQ c.lower e) / (2 * e)))) * 10) : ℚ) / 10,
        sampleSize := c.sampleSize, estimate := c.estimate,
        lower := c.lower, upper := c.upper } := by
  obtain ⟨est, lo, up, ss⟩ := c
  cases hest
  simp [calculateConfidencePercentage, hne]

theorem jsRoundClampDivBounds (x : ℚ) :
    0 ≤ ((jsRound (max 0 (min 100 x) * 10) : ℚ) / 10)
    ∧ ((jsRound (max 0 (min 100 x) * 10) : ℚ) / 10) ≤ 100 := by
  have h0 : (0 : ℚ) ≤ max 0 (min 100 x) := le_max_left _ _
  have h1 : max 0 (min 100 x) ≤ 100 := max_le (by norm_num) (min_le_left _ _)
  have hl : (0 : ℤ) ≤ jsRound (max 0 (min 100 x) * 10) := by
    rw [jsRound_eq_intFloor]
    exact Int.floor_nonneg.mpr (by linarith)
  have hu : jsRound (max 0 (min 100 x) * 10) ≤ 1000 := by
    rw [jsRound_eq_intFloor]
    have h2 : max 0 (min 100 x) * 10 + 1/2 < ((1001 : ℤ) : ℚ) := by push_cast; linarith
    have h3 : ⌊max 0 (min 100 x) * 10 + 1/2⌋ < (1001 : ℤ) := Int.floor_lt.mpr h2
    omega
  constructor
  · positivity
  · have : ((jsRound (max 0 (min 100 x) * 10) : ℤ) : ℚ) ≤ 1000 := by exact_mod_cast hu
    linarith

/-- Claim C2, counterexample.  The interval {estimate 5, lower 0, upper
10} has a present lower bound of 0; the code replaces the falsy 0 by the
estimate and yields 50.0, while the claimed formula, taking lower as
given, yields 0.0. -/
theorem claim_C2_counterexample :
    calculateConfidencePercentage
      (some { estimate := some 5, lower := some 0, upper := some 10, sampleSize := some 1 })
      = some { percent := 50, sampleSize := some 1, estimate := some 5,
               lower := some 0, upper := some 10 }
    ∧ specConfidencePercentFormula 5 0 10 = 0
    ∧ (50 : ℚ) ≠ 0 := by
  refine ⟨?_, ?_, ?_⟩ <;> decide

/-- Claim C2, amended.  When lower and upper are present and nonzero the
derived percent matches the spec formula exactly; lower or upper that is
absent or zero falls back to the estimate first.  For any interval with a
nonzero estimate the derived value exists and lies in [0, 100] (in
particular under lower <= estimate <= upper with estimate > 0); when
lower, upper and estimate coincide and are positive the result is 100;
and a missing or zero estimate yields no value. -/
theorem claim_C2 :
    (∀ e l u s : ℚ, e ≠ 0 → l ≠ 0 → u ≠ 0 →
      calculateConfidencePercentage
        (some { estimate := some e, lower := some l, upper := some u, sampleSize := some s })
        = some { percent := specConfidencePercentFormula e l u, sampleSize := some s,
                 estimate := some e, lower := some l, upper := some u })
    ∧ (∀ e l u s : ℚ, 0 < e → l ≤ e → e ≤ u →
      ∃ p, calculateConfidencePercentage
        (some { estimate := some e, lower := some l, upper := some u, sampleSize := some s })
        = some p ∧ 0 ≤ p.percent ∧ p.percent ≤ 100)
    ∧ (∀ e s : ℚ, 0 < e →
      (calculateConfidencePercentage
        (some { estimate := some e, lower := some e, upper := some e, sampleSize := some s })).map
          (fun p => p.percent) = some 100)
    ∧ (∀ c : ConfidenceInterval, c.estimate = none ∨ c.estimate = some 0 →
        calculateConfidencePercentage (some c) = none)
    ∧ calculateConfidencePercentage none = none := by
  refine ⟨?_, ?_, ?_, ?_, rfl⟩
  · intro e l u s he hl hu
    rw [calc_some_of_estimate _ e rfl he]
    simp [jsOrQ, hl, hu, specConfidencePercentFormula]
  · intro e l u s he _ _
    have hne : e ≠ 0 := ne_of_gt he
    refine ⟨_, calc_some_of_estimate _ e rfl hne, ?_, ?_⟩
    · exact (jsRoundClampDivBounds _).1
    · exact (jsRoundClampDivBounds _).2
  · intro e s he
    have hne : e ≠ 0 := ne_of_gt he
    simp [calculateConfidencePercentage, jsOrQ, hne, jsRound]
    decide
  · intro c h
    rcases h with h | h <;> simp [calculateConfidencePercentage, h]

/-- Claim C2, witness: the amended theorem applied at concrete
intervals. -/
theorem claim_C2_witness :
    (calculateConfidencePercentage
      (some { estimate := some 4, lower := some 2, upper := some 6, sampleSize := some 1 })
      = some { percent := specConfidencePercentFormula 4 2 6, sampleSize := some 1,
               estimate := some 4, lower := some 2, upper := some 6 })
    ∧ (∃ p, calculateConfidencePercentage
      (some { estimate := some 5, lower := some 4, upper := some 7, sampleSize := some 2 })
      = some p ∧ 0 ≤ p.percent ∧ p.percent ≤ 100)
    ∧ ((calculateConfidencePercentage
      (some { estimate := some 7, lower := some 7, upper := some 7, sampleSize := some 3 })).map
        (fun p => p.percent) = some 100)
    ∧ calculateConfidencePercentage
      (some { estimate := none, lower := none, upper := none, sampleSize := none }) = none :=
  ⟨claim_C2.1 4 2 6 1 (by decide) (by decide) (by decide),
   claim_C2.2.1 5 4 7 2 (by decide) (by decide) (by decide),
   claim_C2.2.2.1 7 3 (by decide),
   claim_C2.2.2.2.1 { estimate := none, lower := none, upper := none, sampleSize := none }
     (Or.inl rfl)⟩

/-- Sum of one numeric field over the entries of a given month. -/
def monthSum (f : TimeSeriesEntry → ℚ) (m : String) (l : List TimeSeriesEntry) : ℚ :=
  ((l.filter (fun e => e.month == m)).map f).sum

theorem monthSum_nil (f : TimeSeriesEntry → ℚ) (m : String) : monthSum f m [] = 0 := rfl

theorem monthSum_cons (f : TimeSeriesEntry → ℚ) (m : String) (e : TimeSeriesEntry)
    (l : List TimeSeriesEntry) :
    monthSum f m (e :: l) = (if e.month == m then f e else 0) + monthSum f m l := by
  by_cases h : e.month == m <;> simp [monthSum, List.filter_cons, h]

theorem monthSum_insertTsEntry (f : TimeSeriesEntry → ℚ)
    (hf : ∀ x e, f (addTsFields x e) = f x + f e) (m : String) :
    ∀ (acc : List TimeSeriesEntry) (e : TimeSeriesEntry),
      monthSum f m (insertTsEntry acc e)
        = monthSum f m acc + (if e.month == m then f e else 0) := by
  intro acc
  induction acc with
  | nil =>
    intro e
    rw [insertTsEntry, monthSum_cons, monthSum_nil]
    ring
  | cons x xs ih =>
    intro e
    rw [insertTsEntry]
    by_cases hxe : x.month == e.month
    · rw [if_pos hxe, monthSum_cons, monthSum_cons]
      have hxe2 : x.month = e.month := by
        rwa [beq_iff_eq] at hxe
      have hmonth : (addTsFields x e).month = x.month := rfl
      rw [hmonth, hf]
      by_cases hxm : (x.month == m) = true
      · have hem : (e.month == m) = true := by
          rw [← hxe2]
          exact hxm
        simp only [if_pos hxm, if_pos hem]
        ring
      · have hem : ¬ ((e.month == m) = true) := by
          rw [← hxe2]
          exact hxm
        simp only [if_neg hxm, if_neg hem]
        ring
    · rw [if_neg hxe, monthSum_cons, monthSum_cons, ih e]
      ring

theorem monthSum_foldl_insert (f : TimeSeriesEntry → ℚ)
    (hf : ∀ x e, f (addTsFields x e) = f x + f e) (m : String) :
    ∀ (series acc : List TimeSeriesEntry),
      monthSum f m (series.foldl insertTsEntry acc)
        = monthSum f m acc + monthSum f m series := by
  intro series
  induction series with
  | nil => intro acc; simp [monthSum_nil]
  | cons e rest ih =>
    intro acc
    rw [List.foldl_cons, ih, monthSum_insertTsEntry f hf, monthSum_cons]
    ring

theorem monthSum_foldl_lists (f : TimeSeriesEntry → ℚ)
    (hf : ∀ x e, f (addTsFields x e) = f x + f e) (m : String) :
    ∀ (ls : List (List TimeSeriesEntry)) (acc : List TimeSeriesEntry),
      monthSum f m (ls.foldl (fun m0 s => s.foldl insertTsEntry m0) acc)
        = monthSum f m acc + (ls.map (monthSum f m)).sum := by
  intro ls
  induction ls with
  | nil => intro acc; simp
  | cons s rest ih =>
    intro acc
    rw [List.foldl_cons, ih, monthSum_foldl_insert f hf, List.map_cons, List.sum_cons]
    ring

theorem monthSum_perm (f : TimeSeriesEntry → ℚ) (m : String)
    {l l2 : List TimeSeriesEntry} (h : List.Perm l l2) :
    monthSum f m l = monthSum f m l2 :=
  List.Perm.sum_eq (List.Perm.map f (List.Perm.filter _ h))

theorem monthSum_mergeTimeSeriesLists (f : TimeSeriesEntry → ℚ)
    (hf : ∀ x e, f (addTsFields x e) = f x + f e) (m : String)
    (ls : List (List TimeSeriesEntry)) :
    monthSum f m (mergeTimeSeriesLists ls) = (ls.map (monthSum f m)).sum := by
  rw [mergeTimeSeriesLists]
  rw [monthSum_perm f m (List.perm_insertionSort tsLe _)]
  rw [monthSum_foldl_lists f hf, monthSum_nil]
  ring

/-- Account A of the worked merge example of claim C3. -/
def c3AccountA : AccountMetrics :=
  { accountId := "A", accountName := none,
    current := { requests := 100, bytes := 0, dnsQueries := 0, confidence := none },
    previous := { requests := 0, bytes := 0, dnsQueries := 0 },
    timeSeries := [{ month := "2025-01", timestamp := 1, requests := 100,
                     bytes := 0, dnsQueries := 0 }],
    zoneBreakdown := { primary := 0, secondary := 0, zones := [] },
    previousMonthZoneBreakdown := { primary := 0, secondary := 0, zones := [] } }

/-- Account B of the worked merge example of claim C3. -/
def c3AccountB : AccountMetrics :=
  { accountId := "B", accountName := none,
    current := { requests := 60, bytes := 0, dnsQueries := 0, confidence := none },
    previous := { requests := 0, bytes := 0, dnsQueries := 0 },
    timeSeries := [{ month := "2025-01", timestamp := 1, requests := 50,
                     bytes := 0, dnsQueries := 0 },
                   { month := "2025-02", timestamp := 2, requests := 10,
                     bytes := 0, dnsQueries := 0 }],
    zoneBreakdown := { primary := 0, secondary := 0, zones := [] },
    previousMonthZoneBreakdown := { primary := 0, secondary := 0, zones := [] } }

/-- Claim C3, confirmed.  The merged series of the cross-account
aggregator sums every field month by month across the accounts (so a
month held by one account alone is kept unchanged), the result is sorted
ascending by timestamp, and the worked example of the claim evaluates as
stated. -/
theorem claim_C3 :
    (∀ (accounts : List AccountMetrics) (m : String),
      monthSum (fun e => e.requests) m ((aggregateAccountMetrics accounts).timeSeries)
        = (accounts.map (fun a => monthSum (fun e => e.requests) m a.timeSeries)).sum)
    ∧ (∀ (accounts : List AccountMetrics) (m : String),
      monthSum (fun e => e.bytes) m ((aggregateAccountMetrics accounts).timeSeries)
        = (accounts.map (fun a => monthSum (fun e => e.bytes) m a.timeSeries)).sum)
    ∧ (∀ (accounts : List AccountMetrics) (m : String),
      monthSum (fun e => e.dnsQueries) m ((aggregateAccountMetrics accounts).timeSeries)
        = (accounts.map (fun a => monthSum (fun e => e.dnsQueries) m a.timeSeries)).sum)
    ∧ (∀ accounts : List AccountMetrics,
      List.Sorted tsLe ((aggregateAccountMetrics accounts).timeSeries))
    ∧ (aggregateAccountMetrics [c3AccountA, c3AccountB]).timeSeries
        = [{ month := "2025-01", timestamp := 1, requests := 150, bytes := 0, dnsQueries := 0 },
           { month := "2025-02", timestamp := 2, requests := 10, bytes := 0, dnsQueries := 0 }] := by
  refine ⟨?_, ?_, ?_, ?_, ?_⟩
  · intro accounts m
    show monthSum _ m (mergeTimeSeriesLists (accounts.map (fun a => a.timeSeries))) = _
    rw [monthSum_mergeTimeSeriesLists _ (fun x e => rfl), List.map_map]
    rfl
  · intro accounts m
    show monthSum _ m (mergeTimeSeriesLists (accounts.map (fun a => a.timeSeries))) = _
    rw [monthSum_mergeTimeSeriesLists _ (fun x e => rfl), List.map_map]
    rfl
  · intro accounts m
    show monthSum _ m (mergeTimeSeriesLists (accounts.map (fun a => a.timeSeries))) = _
    rw [monthSum_mergeTimeSeriesLists _ (fun x e => rfl), List.map_map]
    rfl
  · intro accounts
    exact List.sorted_insertionSort tsLe _
  · decide

theorem jsSum0_foldl_some :
    ∀ (l : List (Option ℚ)) (a : ℚ), (∀ x ∈ l, x.isSome = true) →
      l.foldl (fun acc v =>
        match acc, v with
        | some a2, some b => some (a2 + b)
        | _, _ => none) (some a)
      = some (a + (l.map (fun o => o.getD 0)).sum) := by
  intro l
  induction l with
  | nil => intro a _; simp
  | cons x xs ih =>
    intro a hall
    match x, hall with
    | some b, hall =>
      rw [List.foldl_cons]
      rw [ih (a + b) (fun y hy => hall y (List.mem_cons_of_mem _ hy))]
      simp
      ring
    | none, hall =>
      exact absurd (hall none (List.mem_cons_self _ _)) (by simp)

theorem jsSum0_all_some (l : List (Option ℚ)) (h : ∀ x ∈ l, x.isSome = true) :
    jsSum0 l = some ((l.map (fun o => o.getD 0)).sum) := by
  rw [jsSum0, jsSum0_foldl_some l 0 h, zero_add]

theorem aggregateConfidenceField_ne_nil (l : List ConfidencePercent) (h : l ≠ []) :
    aggregateConfidenceField l = calculateConfidencePercentage (some
      { estimate := jsSum0 (l.map (fun c => c.estimate)),
        lower := jsSum0 (l.map (fun c => c.lower)),
        upper := jsSum0 (l.map (fun c => c.upper)),
        sampleSize := jsSum0 (l.map (fun c => c.sampleSize)) }) := by
  cases l with
  | nil => exact absurd rfl h
  | cons a as => rfl

/-- The first per-account confidence record of the worked add-on
counterexample of claim C1: {estimate 100, lower 90, upper 110}, derived
percent 90. -/
def c1Conf1 : ConfidencePercent :=
  { percent := 90, sampleSize := some 10, estimate := some 100,
    lower := some 90, upper := some 110 }

/-- The second per-account confidence record of the worked add-on
counterexample of claim C1: {estimate 200, lower 100, upper 300}, derived
percent 50. -/
def c1Conf2 : ConfidencePercent :=
  { percent := 50, sampleSize := some 20, estimate := some 200,
    lower := some 100, upper := some 300 }

/-- First account entry of the add-on counterexample of claim C1. -/
def c1Entry1 : AddonAccountEntry :=
  { accountId := "acct1",
    data := { current := { requests := 100, zones := [], confidence := some c1Conf1 },
              previous := { requests := 0, zones := [] },
              timeSeries := [] } }

/-- Second account entry of the add-on counterexample of claim C1. -/
def c1Entry2 : AddonAccountEntry :=
  { accountId := "acct2",
    data := { current := { requests := 200, zones := [], confidence := some c1Conf2 },
              previous := { requests := 0, zones := [] },
              timeSeries := [] } }

/-- First account of the core-aggregation instance of claim C1. -/
def c1AccountA : AccountMetrics :=
  { accountId := "acct1", accountName := none,
    current := { requests := 100, bytes := 0, dnsQueries := 0,
                 confidence := some { requests := some c1Conf1, bytes := none,
                                      dnsQueries := none } },
    previous := { requests := 0, bytes := 0, dnsQueries := 0 },
    timeSeries := [],
    zoneBreakdown := { primary := 0, secondary := 0, zones := [] },
    previousMonthZoneBreakdown := { primary := 0, secondary := 0, zones := [] } }

/-- Second account of the core-aggregation instance of claim C1. -/
def c1AccountB : AccountMetrics :=
  { accountId := "acct2", accountName := none,
    current := { requests := 200, bytes := 0, dnsQueries := 0,
                 confidence := some { requests := some c1Conf2, bytes := none,
                                      dnsQueries := none } },
    previous := { requests := 0, bytes := 0, dnsQueries := 0 },
    timeSeries := [],
    zoneBreakdown := { primary := 0, secondary := 0, zones := [] },
    previousMonthZoneBreakdown := { primary := 0, secondary := 0, zones := [] } }

/-- Claim C1, counterexample.  For the add-on merge, combining the two
accounts of the worked instance keeps the first account record verbatim
(percent 90), while deriving from the component-wise sums would give
63.3: the add-on paths do not sum before deriving. -/
theorem claim_C1_counterexample :
    addonMergedConfidence [c1Entry1, c1Entry2] = some c1Conf1
    ∧ ((buildAddonAggregate (some 1000) [c1Entry1, c1Entry2]).bind
        (fun m => m.current.confidence)) = some c1Conf1
    ∧ ((calculateConfidencePercentage (some
        { estimate := jsSum0 [some 100, some 200],
          lower := jsSum0 [some 90, some 100],
          upper := jsSum0 [some 110, some 300],
          sampleSize := jsSum0 [some 10, some 20] })).map (fun p => p.percent))
        = some (633/10)
    ∧ c1Conf1.percent ≠ 633/10 := by
  refine ⟨?_, ?_, ?_, ?_⟩ <;> decide

/-- Claim C1, amended.  The core cross-account aggregator does sum
estimate, lower, upper and sampleSize across accounts before re-deriving
the percentage; the add-on merge paths instead reuse the first non-null
per-account confidence verbatim.  Neither path averages derived
percentages: at the worked instance the core aggregate is 63.3, not the
70 an average would give. -/
theorem claim_C1 :
    (∀ (accounts : List AccountMetrics) (l : List ConfidencePercent),
      collectedConfidence (fun c => c.requests) accounts = l → l ≠ [] →
      ((aggregateAccountMetrics accounts).current.confidence.bind (fun s => s.requests))
        = calculateConfidencePercentage (some
            { estimate := some ((l.map (fun c => c.estimate.getD 0)).sum),
              lower := some ((l.map (fun c => c.lower.getD 0)).sum),
              upper := some ((l.map (fun c => c.upper.getD 0)).sum),
              sampleSize := some ((l.map (fun c => c.sampleSize.getD 0)).sum) })
        ∨ ¬ (∀ c ∈ l, c.estimate.isSome = true ∧ c.lower.isSome = true
              ∧ c.upper.isSome = true ∧ c.sampleSize.isSome = true))
    ∧ (∀ (e : AddonAccountEntry) (rest : List AddonAccountEntry) (c : ConfidencePercent),
      e.data.current.confidence = some c →
      addonMergedConfidence (e :: rest) = some c)
    ∧ (((aggregateAccountMetrics [c1AccountA, c1AccountB]).current.confidence.bind
        (fun s => s.requests)).map (fun p => p.percent) = some (633/10)
      ∧ (633/10 : ℚ) ≠ (c1Conf1.percent + c1Conf2.percent) / 2) := by
  refine ⟨?_, ?_, by decide, by decide⟩
  · intro accounts l hcol hne
    by_cases hall : ∀ c ∈ l, c.estimate.isSome = true ∧ c.lower.isSome = true
        ∧ c.upper.isSome = true ∧ c.sampleSize.isSome = true
    · left
      subst hcol
      show aggregateConfidenceField (collectedConfidence (fun c => c.requests) accounts) = _
      rw [aggregateConfidenceField_ne_nil _ hne]
      rw [jsSum0_all_some _ (fun x hx => by
        obtain ⟨c, hc, hcx⟩ := List.mem_map.mp hx
        rw [← hcx]
        exact (hall c hc).1)]
      rw [jsSum0_all_some _ (fun x hx => by
        obtain ⟨c, hc, hcx⟩ := List.mem_map.mp hx
        rw [← hcx]
        exact (hall c hc).2.1)]
      rw [jsSum0_all_some _ (fun x hx => by
        obtain ⟨c, hc, hcx⟩ := List.mem_map.mp hx
        rw [← hcx]
        exact (hall c hc).2.2.1)]
      rw [jsSum0_all_some _ (fun x hx => by
        obtain ⟨c, hc, hcx⟩ := List.mem_map.mp hx
        rw [← hcx]
        exact (hall c hc).2.2.2)]
      rw [List.map_map, List.map_map, List.map_map, List.map_map]
      rfl
    · right
      exact hall
  · intro e rest c h
    rw [addonMergedConfidence, List.find?_cons_of_pos _ (by rw [h]; rfl)]
    exact h

/-- Claim C1, witness: the amended theorem applied to a one-account core
list and to the two-entry add-on list. -/
theorem claim_C1_witness :
    (((aggregateAccountMetrics [c1AccountA]).current.confidence.bind (fun s => s.requests))
        = calculateConfidencePercentage (some
            { estimate := some (([c1Conf1].map (fun c => c.estimate.getD 0)).sum),
              lower := some (([c1Conf1].map (fun c => c.lower.getD 0)).sum),
              upper := some (([c1Conf1].map (fun c => c.upper.getD 0)).sum),
              sampleSize := some (([c1Conf1].map (fun c => c.sampleSize.getD 0)).sum) })
      ∨ ¬ (∀ c ∈ [c1Conf1], c.estimate.isSome = true ∧ c.lower.isSome = true
            ∧ c.upper.isSome = true ∧ c.sampleSize.isSome = true))
    ∧ addonMergedConfidence [c1Entry1, c1Entry2] = some c1Conf1 :=
  ⟨claim_C1.1 [c1AccountA] [c1Conf1] (by decide) (by decide),
   claim_C1.2.1 c1Entry1 [c1Entry2] c1Conf1 (by decide)⟩

/-- Presence of one enabled add-on in a cached payload, stated at the
propositional level: the add-on object exists and both its timeSeries and
perAccountData fields are present. -/
def AddonPresent (s : Option CachedAddonSnapshot) : Prop :=
  ∃ a, s = some a ∧ a.timeSeries ≠ none ∧ a.perAccountData ≠ none

/-- Completeness of a cached payload for a configuration, stated at the
propositional level, following the claim: core current metrics present
when core is enabled, and for every enabled add-on the data, timeSeries
and perAccountData all present. -/
def CacheCompleteFor (cfg : DashConfig) (d : CachedSnapshotData) : Prop :=
  (cfgEnabled cfg (fun s => s.core) = true → d.current ≠ none)
  ∧ (cfgEnabled cfg (fun s => s.botManagement) = true → AddonPresent d.botManagement)
  ∧ (cfgEnabled cfg (fun s => s.apiShield) = true → AddonPresent d.apiShield)
  ∧ (cfgEnabled cfg (fun s => s.pageShield) = true → AddonPresent d.pageShield)
  ∧ (cfgEnabled cfg (fun s => s.advancedRateLimiting) = true
      → AddonPresent d.advancedRateLimiting)

theorem addonSnapshotComplete_iff (s : Option CachedAddonSnapshot) :
    addonSnapshotComplete s = true ↔ AddonPresent s := by
  cases s with
  | none =>
    simp [addonSnapshotComplete, AddonPresent]
  | some a =>
    obtain ⟨ts, pa⟩ := a
    cases ts <;> cases pa <;> simp [addonSnapshotComplete, AddonPresent]

/-- Claim C4, confirmed.  With a stored configuration, a pre-warmed cache
entry is served exactly when its payload exists and is complete for the
configuration: core current metrics present when core is enabled and
every enabled add-on present with its timeSeries and perAccountData; any
incomplete snapshot is reported as a miss. -/
theorem claim_C4 (cfg : DashConfig) (cd : PreWarmedCache) :
    servePreWarmed (some cd) (some cfg) = true
      ↔ ∃ d, cd.data = some d ∧ CacheCompleteFor cfg d := by
  obtain ⟨ts, data⟩ := cd
  cases data with
  | none => simp [servePreWarmed]
  | some d =>
    show cacheIsComplete cfg d = true ↔ _
    rw [cacheIsComplete]
    simp only [Bool.and_eq_true, Bool.or_eq_true, Bool.not_eq_true']
    constructor
    · rintro ⟨⟨⟨⟨h1, h2⟩, h3⟩, h4⟩, h5⟩
      refine ⟨d, rfl, ?_, ?_, ?_, ?_, ?_⟩
      · intro hc
        rcases h1 with h | h
        · rw [hc] at h; exact absurd h (by simp)
        · simp [Option.isSome_iff_exists] at h
          obtain ⟨x, hx⟩ := h
          rw [hx]
          simp
      · intro hc
        rcases h2 with h | h
        · rw [hc] at h; exact absurd h (by simp)
        · exact (addonSnapshotComplete_iff _).mp h
      · intro hc
        rcases h3 with h | h
        · rw [hc] at h; exact absurd h (by simp)
        · exact (addonSnapshotComplete_iff _).mp h
      · intro hc
        rcases h4 with h | h
        · rw [hc] at h; exact absurd h (by simp)
        · exact (addonSnapshotComplete_iff _).mp h
      · intro hc
        rcases h5 with h | h
        · rw [hc] at h; exact absurd h (by simp)
        · exact (addonSnapshotComplete_iff _).mp h
    · rintro ⟨d2, hd2, hcore, hbm, hapi, hpage, harl⟩
      cases hd2
      refine ⟨⟨⟨⟨?_, ?_⟩, ?_⟩, ?_⟩, ?_⟩
      · by_cases hc : cfgEnabled cfg (fun s => s.core) = true
        · right
          have hne := hcore hc
          cases hcur : d.current with
          | none => exact absurd hcur hne
          | some x => simp [hcur]
        · left
          simpa using hc
      · by_cases hc : cfgEnabled cfg (fun s => s.botManagement) = true
        · exact Or.inr ((addonSnapshotComplete_iff _).mpr (hbm hc))
        · left; simpa using hc
      · by_cases hc : cfgEnabled cfg (fun s => s.apiShield) = true
        · exact Or.inr ((addonSnapshotComplete_iff _).mpr (hapi hc))
        · left; simpa using hc
      · by_cases hc : cfgEnabled cfg (fun s => s.pageShield) = true
        · exact Or.inr ((addonSnapshotComplete_iff _).mpr (hpage hc))
        · left; simpa using hc
      · by_cases hc : cfgEnabled cfg (fun s => s.advancedRateLimiting) = true
        · exact Or.inr ((addonSnapshotComplete_iff _).mpr (harl hc))
        · left; simpa using hc

/-- Configuration used by the claim C4 witness: core and botManagement
enabled. -/
def c4Cfg : DashConfig :=
  { applicationServices := some { core := some { enabled := true },
                                  botManagement := some { enabled := true },
                                  apiShield := none, pageShield := none,
                                  advancedRateLimiting := none } }

/-- Cached payload lacking botManagement, used by the claim C4 witness. -/
def c4DataMissing : CachedSnapshotData :=
  { current := some { requests := 1, bytes := 1, dnsQueries := 0, confidence := none },
    botManagement := none, apiShield := none, pageShield := none,
    advancedRateLimiting := none }

/-- Cached payload with botManagement present, used by the claim C4
witness. -/
def c4DataFull : CachedSnapshotData :=
  { current := some { requests := 1, bytes := 1, dnsQueries := 0, confidence := none },
    botManagement := some { timeSeries := some [], perAccountData := some [] },
    apiShield := none, pageShield := none, advancedRateLimiting := none }

/-- Claim C4, witness: with botManagement enabled, a payload lacking it
is reported as a miss and the completed payload is served. -/
theorem claim_C4_witness :
    servePreWarmed (some { timestamp := 0, data := some c4DataMissing }) (some c4Cfg) = false
    ∧ servePreWarmed (some { timestamp := 0, data := some c4DataFull }) (some c4Cfg) = true := by
  constructor
  · rw [Bool.eq_false_iff]
    intro hserve
    obtain ⟨d, hd, _, hbm, _⟩ :=
      (claim_C4 c4Cfg { timestamp := 0, data := some c4DataMissing }).mp hserve
    cases hd
    obtain ⟨a, ha, _⟩ := hbm rfl
    exact Option.noConfusion ha
  · exact (claim_C4 c4Cfg { timestamp := 0, data := some c4DataFull }).mpr
      ⟨c4DataFull, rfl, fun _ => by decide,
        fun _ => ⟨{ timeSeries := some [], perAccountData := some [] }, rfl, by decide, by decide⟩,
        fun hc => absurd hc (by decide), fun hc => absurd hc (by decide),
        fun hc => absurd hc (by decide)⟩

/-- Claim C5, counterexample.  At current 90 and threshold 100 the ratio
is exactly 90 percent, so the claim demands an alert on the scheduled
path too; the scheduled check emits nothing there (and still nothing at
100 percent), while the request-driven evaluator does alert. -/
theorem claim_C5_counterexample :
    scheduledThresholdAlerts 0 90 0 0
      { zones := none, requests := some 100, bandwidth := none, dnsQueries := none } = []
    ∧ ((90 : ℚ) / 100 * 100 ≥ 90)
    ∧ scheduledThresholdAlerts 0 100 0 0
      { zones := none, requests := some 100, bandwidth := none, dnsQueries := none } = []
    ∧ checkThresholdAlerts
        { MetricValues.none with requests := some 90 }
        { MetricValues.none with requests := some 100 }
        = [{ metric := "HTTP Requests", metricKey := "requests", current := 90,
             threshold := 100, percentage := 90 }] := by
  refine ⟨?_, ?_, ?_, ?_⟩ <;> decide

/-- Claim C5, amended.  The inclusive-at-90-percent boundary governs the
request-driven evaluator only: there an alert is emitted exactly when
current / threshold * 100 is at least 90 (89.9 does not alert, 90.0
does).  The scheduled (cron) path instead alerts exactly when the current
value strictly exceeds the threshold. -/
theorem claim_C5 :
    (∀ (name key : String) (c t : ℚ), c ≠ 0 → t ≠ 0 →
      (alertIfBreached name key (some c) (some t) ≠ [] ↔ c / t * 100 ≥ 90))
    ∧ alertIfBreached "HTTP Requests" "requests" (some (899/10)) (some 100) = []
    ∧ alertIfBreached "HTTP Requests" "requests" (some 90) (some 100)
        = [{ metric := "HTTP Requests", metricKey := "requests", current := 90,
             threshold := 100, percentage := 90 }]
    ∧ (∀ (name : String) (c t : ℚ), t ≠ 0 →
      (scheduledAlertIfExceeded name c (some t) ≠ [] ↔ c > t)) := by
  refine ⟨?_, by decide, by decide, ?_⟩
  · intro name key c t hc ht
    rw [alertIfBreached]
    rw [if_pos ⟨hc, ht⟩]
    by_cases h : c / t * 100 ≥ 90
    · simp [h]
    · simp [h]
  · intro name c t ht
    rw [scheduledAlertIfExceeded]
    by_cases h : c > t
    · rw [if_pos ⟨ht, h⟩]
      simp [h]
    · have : ¬ (t ≠ 0 ∧ c > t) := fun hx => h hx.2
      rw [if_neg this]
      simp [h]

/-- Claim C5, witness: the amended characterizations applied at 90/100 on
the request path and 101/100 on the scheduled path. -/
theorem claim_C5_witness :
    (alertIfBreached "HTTP Requests" "requests" (some 90) (some 100) ≠ []
      ↔ (90 : ℚ) / 100 * 100 ≥ 90)
    ∧ (scheduledAlertIfExceeded "HTTP Requests" 101 (some 100) ≠ [] ↔ (101 : ℚ) > 100) :=
  ⟨claim_C5.1 "HTTP Requests" "requests" 90 100 (by decide) (by decide),
   claim_C5.2.2.2 "HTTP Requests" 101 100 (by decide)⟩

theorem mem_alertIfBreached (name key : String) (cur thr : Option ℚ) (a : AlertRecord)
    (h : a ∈ alertIfBreached name key cur thr) : a.current ≠ 0 ∧ a.threshold ≠ 0 := by
  cases cur with
  | none => simp [alertIfBreached] at h
  | some c =>
    cases thr with
    | none => simp [alertIfBreached] at h
    | some t =>
      rw [alertIfBreached] at h
      by_cases hct : c ≠ 0 ∧ t ≠ 0
      · rw [if_pos hct] at h
        by_cases hp : c / t * 100 ≥ 90
        · rw [if_pos hp] at h
          obtain rfl := List.mem_singleton.mp h
          exact hct
        · rw [if_neg hp] at h
          exact absurd h (List.not_mem_nil a)
      · rw [if_neg hct] at h
        exact absurd h (List.not_mem_nil a)

/-- Claim C9, confirmed.  Every alert record emitted by the
request-driven evaluator carries a nonzero current value and a nonzero
threshold (each percentage division is guarded by the truthiness checks),
and a metric whose current value is falsy or whose threshold is falsy
contributes no alert at all. -/
theorem claim_C9 :
    (∀ (metrics thresholds : MetricValues) (a : AlertRecord),
      a ∈ checkThresholdAlerts metrics thresholds → a.current ≠ 0 ∧ a.threshold ≠ 0)
    ∧ (∀ (name key : String) (cur thr : Option ℚ),
      cur = none ∨ cur = some 0 ∨ thr = none ∨ thr = some 0 →
      alertIfBreached name key cur thr = []) := by
  constructor
  · intro m t a ha
    rw [checkThresholdAlerts] at ha
    rcases List.mem_append.mp ha with h | h
    · rcases List.mem_append.mp h with h | h
      · rcases List.mem_append.mp h with h | h
        · rcases List.mem_append.mp h with h | h
          · rcases List.mem_append.mp h with h | h
            · rcases List.mem_append.mp h with h | h
              · rcases List.mem_append.mp h with h | h
                · exact mem_alertIfBreached _ _ _ _ _ h
                · exact mem_alertIfBreached _ _ _ _ _ h
              · exact mem_alertIfBreached _ _ _ _ _ h
            · exact mem_alertIfBreached _ _ _ _ _ h
          · exact mem_alertIfBreached _ _ _ _ _ h
        · exact mem_alertIfBreached _ _ _ _ _ h
      · exact mem_alertIfBreached _ _ _ _ _ h
    · exact mem_alertIfBreached _ _ _ _ _ h
  · intro name key cur thr h
    rcases h with rfl | rfl | rfl | rfl
    · simp [alertIfBreached]
    · cases thr <;> simp [alertIfBreached]
    · cases cur <;> simp [alertIfBreached]
    · cases cur <;> simp [alertIfBreached]

/-- Claim C9, witness: the guard applied to the concrete 90/100 alert and
to a zero-threshold metric. -/
theorem claim_C9_witness :
    (({ metric := "HTTP Requests", metricKey := "requests", current := 90,
        threshold := 100, percentage := 90 } : AlertRecord).current ≠ 0
      ∧ ({ metric := "HTTP Requests", metricKey := "requests", current := 90,
           threshold := 100, percentage := 90 } : AlertRecord).threshold ≠ 0)
    ∧ alertIfBreached "HTTP Requests" "requests" (some 5) (some 0) = [] :=
  ⟨claim_C9.1 { MetricValues.none with requests := some 90 }
      { MetricValues.none with requests := some 100 }
      { metric := "HTTP Requests", metricKey := "requests", current := 90,
        threshold := 100, percentage := 90 } (by decide),
   claim_C9.2 "HTTP Requests" "requests" (some 5) (some 0)
      (Or.inr (Or.inr (Or.inr rfl)))⟩

theorem lookup_cons_isSome (kv : List (String × String)) (key v k : String)
    (h : (kv.lookup k).isSome = true) :
    ((((key, v) :: kv).lookup k).isSome) = true := by
  rw [List.lookup]
  cases hb : k == key
  · simp only [hb]
    exact h
  · simp only [hb]
    rfl

theorem dedup_kv_mono (aKey month : String) :
    ∀ (alerts : List AlertRecord) (kv : List (String × String)) (k : String),
      (kv.lookup k).isSome = true →
      (((alertDedupLoop aKey month kv alerts).2.1).lookup k).isSome = true := by
  intro alerts
  induction alerts with
  | nil => intro kv k h; exact h
  | cons alert rest ih =>
    intro kv k h
    rw [alertDedupLoop]
    cases hk : kv.lookup (alertMarkerKey aKey alert.metricKey month) with
    | some v => simp only [hk]; exact ih kv k h
    | none =>
      simp only [hk]
      exact ih _ k (lookup_cons_isSome kv _ "true" k h)

theorem dedup_marker_present (aKey month : String) :
    ∀ (alerts : List AlertRecord) (kv : List (String × String)),
      ∀ a ∈ alerts,
        (((alertDedupLoop aKey month kv alerts).2.1).lookup
          (alertMarkerKey aKey a.metricKey month)).isSome = true := by
  intro alerts
  induction alerts with
  | nil => intro kv a ha; exact absurd ha (List.not_mem_nil a)
  | cons alert rest ih =>
    intro kv a ha
    rw [alertDedupLoop]
    cases hk : kv.lookup (alertMarkerKey aKey alert.metricKey month) with
    | some v =>
      simp only [hk]
      rcases List.mem_cons.mp ha with rfl | hmem
      · exact dedup_kv_mono aKey month rest kv _ (by rw [hk]; rfl)
      · exact ih kv a hmem
    | none =>
      simp only [hk]
      rcases List.mem_cons.mp ha with rfl | hmem
      · refine dedup_kv_mono aKey month rest _ _ ?_
        simp [List.lookup]
      · exact ih _ a hmem

theorem dedup_all_present_empty (aKey month : String) :
    ∀ (alerts : List AlertRecord) (kv : List (String × String)),
      (∀ a ∈ alerts,
        (kv.lookup (alertMarkerKey aKey a.metricKey month)).isSome = true) →
      (alertDedupLoop aKey month kv alerts).1 = [] := by
  intro alerts
  induction alerts with
  | nil => intro kv _; rfl
  | cons alert rest ih =>
    intro kv h
    rw [alertDedupLoop]
    cases hk : kv.lookup (alertMarkerKey aKey alert.metricKey month) with
    | some v =>
      simp only [hk]
      exact ih kv (fun a ha => h a (List.mem_cons_of_mem _ ha))
    | none =>
      have := h alert (List.mem_cons_self _ _)
      rw [hk] at this
      exact absurd this (by simp)

theorem dedup_fresh_keys_all_included (aKey month : String) :
    ∀ (alerts : List AlertRecord) (kv : List (String × String)),
      (∀ a ∈ alerts, kv.lookup (alertMarkerKey aKey a.metricKey month) = none) →
      (alerts.map (fun a => alertMarkerKey aKey a.metricKey month)).Nodup →
      (alertDedupLoop aKey month kv alerts).1 = alerts := by
  intro alerts
  induction alerts with
  | nil => intro kv _ _; rfl
  | cons alert rest ih =>
    intro kv habsent hnodup
    rw [alertDedupLoop]
    have hk : kv.lookup (alertMarkerKey aKey alert.metricKey month) = none :=
      habsent alert (List.mem_cons_self _ _)
    simp only [hk]
    have hrest : (alertDedupLoop aKey month
        ((alertMarkerKey aKey alert.metricKey month, "true") :: kv) rest).1 = rest := by
      refine ih _ ?_ (List.Nodup.of_cons (by simpa using hnodup))
      intro a ha
      have hne : alertMarkerKey aKey a.metricKey month
          ≠ alertMarkerKey aKey alert.metricKey month := by
        intro heq
        have hmem : alertMarkerKey aKey alert.metricKey month
            ∈ rest.map (fun a2 => alertMarkerKey aKey a2.metricKey month) := by
          rw [← heq]
          exact List.mem_map_of_mem _ ha
        rw [List.map_cons] at hnodup
        exact (List.nodup_cons.mp hnodup).1 hmem
      have hbeq : (alertMarkerKey aKey a.metricKey month
          == alertMarkerKey aKey alert.metricKey month) = false :=
        beq_eq_false_iff_ne.mpr hne
      rw [List.lookup]
      simp only [hbeq]
      exact habsent a (List.mem_cons_of_mem _ ha)
    rw [hrest]

theorem dedup_puts_shape (aKey month : String) :
    ∀ (alerts : List AlertRecord) (kv : List (String × String)),
      (∀ p ∈ (alertDedupLoop aKey month kv alerts).2.2,
        p.expirationTtl = 3888000 ∧ p.value = "true")
      ∧ (∀ a ∈ (alertDedupLoop aKey month kv alerts).1,
        ({ key := alertMarkerKey aKey a.metricKey month, value := "true",
           expirationTtl := 3888000 } : KvPut) ∈ (alertDedupLoop aKey month kv alerts).2.2
        ∧ kv.lookup (alertMarkerKey aKey a.metricKey month) = none) := by
  intro alerts
  induction alerts with
  | nil =>
    intro kv
    exact ⟨fun p hp => absurd hp (List.not_mem_nil p),
           fun a ha => absurd ha (List.not_mem_nil a)⟩
  | cons alert rest ih =>
    intro kv
    rw [alertDedupLoop]
    cases hk : kv.lookup (alertMarkerKey aKey alert.metricKey month) with
    | some v =>
      simp only [hk]
      exact ih kv
    | none =>
      simp only [hk]
      constructor
      · intro p hp
        rcases List.mem_cons.mp hp with rfl | hmem
        · exact ⟨rfl, rfl⟩
        · exact (ih _).1 p hmem
      · intro a ha
        rcases List.mem_cons.mp ha with rfl | hmem
        · exact ⟨List.mem_cons_self _ _, hk⟩
        · obtain ⟨hput, hlook⟩ := (ih _).2 a hmem
          refine ⟨List.mem_cons_of_mem _ hput, ?_⟩
          by_cases hbeq : (alertMarkerKey aKey a.metricKey month
              == alertMarkerKey aKey alert.metricKey month) = true
          · rw [List.lookup] at hlook
            rw [hbeq] at hlook
            exact absurd hlook (by simp)
          · rw [List.lookup] at hlook
            rw [Bool.not_eq_true] at hbeq
            rw [hbeq] at hlook
            exact hlook

/-- Claim C6, confirmed.  Within one calendar month a second run of the
notification stage over the stored markers sends nothing; every marker
put carries the 45-day TTL (3888000 seconds) and value true; an alert is
included only when its per-metric-per-month marker was absent, and its
marker is then written; and once the month key changes, alerts whose
markers are absent under the new month are all sent again. -/
theorem claim_C6 :
    (∀ (kv : List (String × String)) (accounts : List String) (month : String)
        (alerts : List AlertRecord) (hw : Bool),
      (checkThresholdsNotify
        ((checkThresholdsNotify kv accounts month alerts hw).2.2.1)
        accounts month alerts hw).1 = false)
    ∧ (∀ (aKey month : String) (alerts : List AlertRecord) (kv : List (String × String)),
      (∀ p ∈ (alertDedupLoop aKey month kv alerts).2.2,
        p.expirationTtl = 3888000 ∧ p.value = "true")
      ∧ (∀ a ∈ (alertDedupLoop aKey month kv alerts).1,
        ({ key := alertMarkerKey aKey a.metricKey month, value := "true",
           expirationTtl := 3888000 } : KvPut) ∈ (alertDedupLoop aKey month kv alerts).2.2
        ∧ kv.lookup (alertMarkerKey aKey a.metricKey month) = none))
    ∧ (∀ (aKey m m2 : String) (alerts : List AlertRecord) (kv : List (String × String)),
      (∀ a ∈ alerts,
        ((alertDedupLoop aKey m kv alerts).2.1).lookup
          (alertMarkerKey aKey a.metricKey m2) = none) →
      (alerts.map (fun a => alertMarkerKey aKey a.metricKey m2)).Nodup →
      (alertDedupLoop aKey m2 ((alertDedupLoop aKey m kv alerts).2.1) alerts).1 = alerts) := by
  refine ⟨?_, ?_, ?_⟩
  · intro kv accounts month alerts hw
    by_cases hcond : alerts ≠ [] ∧ hw = true
    · rw [checkThresholdsNotify, if_pos hcond, checkThresholdsNotify, if_pos hcond]
      have hempty : (alertDedupLoop (accountsKeyOf accounts) month
          ((alertDedupLoop (accountsKeyOf accounts) month kv alerts).2.1) alerts).1 = [] := by
        refine dedup_all_present_empty _ _ alerts _ ?_
        intro a ha
        exact dedup_marker_present _ _ alerts kv a ha
      simp [hempty]
    · rw [checkThresholdsNotify, if_neg hcond, checkThresholdsNotify, if_neg hcond]
  · intro aKey month alerts kv
    exact dedup_puts_shape aKey month alerts kv
  · intro aKey m m2 alerts kv habsent hnodup
    exact dedup_fresh_keys_all_included aKey m2 alerts _ habsent hnodup

/-- The alert record used by the claim C6 witness. -/
def c6Alert : AlertRecord :=
  { metric := "HTTP Requests", metricKey := "requests", current := 90,
    threshold := 100, percentage := 90 }

/-- Claim C6, witness: at a concrete store, a first call sends the one
breached alert, an identical second call in the same month sends nothing,
and after the month rolls over the alert is included again. -/
theorem claim_C6_witness :
    (checkThresholdsNotify [] ["b", "a"] "2025-01" [c6Alert] true).1 = true
    ∧ (checkThresholdsNotify
        ((checkThresholdsNotify [] ["b", "a"] "2025-01" [c6Alert] true).2.2.1)
        ["b", "a"] "2025-01" [c6Alert] true).1 = false
    ∧ (alertDedupLoop "a-b" "2025-02"
        ((alertDedupLoop "a-b" "2025-01" [] [c6Alert]).2.1) [c6Alert]).1 = [c6Alert] :=
  ⟨by decide,
   claim_C6.1 [] ["b", "a"] "2025-01" [c6Alert] true,
   claim_C6.2.2 "a-b" "2025-01" "2025-02" [c6Alert] [] (by decide) (by decide)⟩

/-- The zone list the fetch works with: the cached list when present,
otherwise the freshly fetched one (the enterpriseZones variable of
part_002 lines 779-791). -/
def discoveredZones (cachedZones : Option (List RawZone)) (zonesResp : ZonesHttpResponse)
    (accountId : String) : List RawZone :=
  match cachedZones with
  | some zs => zs
  | none => fetchEnterpriseZones zonesResp accountId

/-- Claim C7, confirmed.  With no fresh current-month cache entry, an
account whose eligible zone list comes up empty yields the all-zero
record immediately, no outbound call so far is an analytics query, and
the all-zero record really has zero totals, an empty series and empty
zone lists. -/
theorem claim_C7 :
    (∀ (accountId : String) (accountName : Option String) (nowMs : ℤ)
        (cachedZones : Option (List RawZone)) (zonesResp : ZonesHttpResponse),
      discoveredZones cachedZones zonesResp accountId = [] →
      (fetchAccountMetricsStart accountId accountName nowMs none cachedZones zonesResp).1
        = FetchStage.emptyZones (emptyAccountMetrics accountId accountName))
    ∧ (∀ (accountId : String) (accountName : Option String) (nowMs : ℤ)
        (cachedZones : Option (List RawZone)) (zonesResp : ZonesHttpResponse),
      discoveredZones cachedZones zonesResp accountId = [] →
      ∀ c ∈ (fetchAccountMetricsStart accountId accountName nowMs none
               cachedZones zonesResp).2,
        c.isAnalyticsQuery = false)
    ∧ (∀ (accountId : String) (accountName : Option String),
      (emptyAccountMetrics accountId accountName).current.requests = 0
      ∧ (emptyAccountMetrics accountId accountName).current.bytes = 0
      ∧ (emptyAccountMetrics accountId accountName).current.dnsQueries = 0
      ∧ (emptyAccountMetrics accountId accountName).previous.requests = 0
      ∧ (emptyAccountMetrics accountId accountName).previous.bytes = 0
      ∧ (emptyAccountMetrics accountId accountName).previous.dnsQueries = 0
      ∧ (emptyAccountMetrics accountId accountName).timeSeries = []
      ∧ (emptyAccountMetrics accountId accountName).zoneBreakdown.zones = []
      ∧ (emptyAccountMetrics accountId accountName).previousMonthZoneBreakdown.zones = []) := by
  refine ⟨?_, ?_, ?_⟩
  · intro accountId accountName nowMs cachedZones zonesResp h
    cases cachedZones with
    | some zs =>
      have hzs : zs = [] := h
      subst hzs
      rfl
    | none =>
      have hfe : fetchEnterpriseZones zonesResp accountId = [] := h
      simp [fetchAccountMetricsStart, fetchAccountMetricsZonePhase, hfe]
  · intro accountId accountName nowMs cachedZones zonesResp h c hc
    cases cachedZones with
    | some zs =>
      have hzs : zs = [] := h
      subst hzs
      have hc2 : c ∈ [ExternalCall.accountLookup] := hc
      obtain rfl := List.mem_singleton.mp hc2
      rfl
    | none =>
      have hfe : fetchEnterpriseZones zonesResp accountId = [] := h
      have hpair : (fetchAccountMetricsStart accountId accountName nowMs none
          none zonesResp).2 = [ExternalCall.accountLookup, ExternalCall.zoneList] := by
        simp [fetchAccountMetricsStart, fetchAccountMetricsZonePhase, hfe]
      rw [hpair] at hc
      rcases List.mem_cons.mp hc with rfl | hc3
      · rfl
      · obtain rfl := List.mem_singleton.mp hc3
        rfl
  · intro accountId accountName
    exact ⟨rfl, rfl, rfl, rfl, rfl, rfl, rfl, rfl, rfl⟩

/-- Claim C7, witness: a live zones response listing no zone for the
account takes the empty branch. -/
theorem claim_C7_witness :
    (fetchAccountMetricsStart "a1" none 0 none none
      { ok := true, result := some [] }).1
      = FetchStage.emptyZones (emptyAccountMetrics "a1" none)
    ∧ (emptyAccountMetrics "a1" none).timeSeries = [] :=
  ⟨claim_C7.1 "a1" none 0 none { ok := true, result := some [] } (by decide),
   (claim_C7.2.2 "a1" none).2.2.2.2.2.2.1⟩

/-- Claim C10, confirmed.  fetchEnterpriseZones returns the empty list
whenever the response is not OK or carries no result array, and through
the per-account fetch this failure takes the zero-eligible-zones branch:
the all-zero record is returned with only the account lookup and the zone
list call made. -/
theorem claim_C10 :
    (∀ (resp : ZonesHttpResponse) (accountId : String),
      resp.ok = false → fetchEnterpriseZones resp accountId = [])
    ∧ (∀ (resp : ZonesHttpResponse) (accountId : String),
      resp.result = none → fetchEnterpriseZones resp accountId = [])
    ∧ (∀ (accountId : String) (accountName : Option String) (nowMs : ℤ)
        (resp : ZonesHttpResponse),
      resp.ok = false ∨ resp.result = none →
      fetchAccountMetricsStart accountId accountName nowMs none none resp
        = (FetchStage.emptyZones (emptyAccountMetrics accountId accountName),
           [ExternalCall.accountLookup, ExternalCall.zoneList])) := by
  have h1 : ∀ (resp : ZonesHttpResponse) (accountId : String),
      resp.ok = false → fetchEnterpriseZones resp accountId = [] := by
    intro resp accountId h
    obtain ⟨ok, result⟩ := resp
    cases result with
    | none => rfl
    | some zs =>
      cases h
      rfl
  have h2 : ∀ (resp : ZonesHttpResponse) (accountId : String),
      resp.result = none → fetchEnterpriseZones resp accountId = [] := by
    intro resp accountId h
    obtain ⟨ok, result⟩ := resp
    cases h
    rfl
  refine ⟨h1, h2, ?_⟩
  · intro accountId accountName nowMs resp h
    have hfe : fetchEnterpriseZones resp accountId = [] := by
      rcases h with h | h
      · exact h1 resp accountId h
      · exact h2 resp accountId h
    simp [fetchAccountMetricsStart, fetchAccountMetricsZonePhase, hfe]

/-- Claim C10, witness: a 403-style not-OK response and a missing result
array both produce the empty list, and the fetch therefore returns the
all-zero record. -/
theorem claim_C10_witness :
    fetchEnterpriseZones { ok := false, result := some [] } "a1" = []
    ∧ fetchEnterpriseZones { ok := true, result := none } "a1" = []
    ∧ fetchAccountMetricsStart "a1" none 0 none none { ok := false, result := some [] }
        = (FetchStage.emptyZones (emptyAccountMetrics "a1" none),
           [ExternalCall.accountLookup, ExternalCall.zoneList]) :=
  ⟨claim_C10.1 { ok := false, result := some [] } "a1" rfl,
   claim_C10.2.1 { ok := true, result := none } "a1" rfl,
   claim_C10.2.2 "a1" none 0 { ok := false, result := some [] } (Or.inl rfl)⟩

/-- Claim C8, counterexample.  The pre-warm key is built from the account
id list in its given order: for the list [b, a] the stored key is
pre-warmed:b,a, not the sorted pre-warmed:a,b the claim requires. -/
theorem claim_C8_counterexample :
    sortStrings ["b", "a"] = ["a", "b"]
    ∧ preWarmCacheKey ["b", "a"] = "pre-warmed:b,a"
    ∧ preWarmCacheKey (sortStrings ["b", "a"]) = "pre-warmed:a,b"
    ∧ preWarmCacheKey ["b", "a"] ≠ preWarmCacheKey (sortStrings ["b", "a"]) := by
  refine ⟨?_, ?_, ?_, ?_⟩ <;> decide

/-- Claim C8, amended.  Both the pre-warm writer and the progressive
lookup build the cache key as pre-warmed: followed by the account ids
joined by commas in their given (configured) order, not sorted, and the
snapshot is written with a 6-hour TTL; the same ordered list therefore
finds the stored snapshot. -/
theorem claim_C8 :
    (∀ ids : List String, progressiveCacheKey ids = preWarmCacheKey ids)
    ∧ (∀ ids : List String,
        preWarmCacheKey ids = "pre-warmed:" ++ String.intercalate "," ids)
    ∧ preWarmCacheTtlSeconds = 6 * 60 * 60 :=
  ⟨fun _ => rfl, fun _ => rfl, rfl⟩
